import Mathlib

/-
Shallow embedding of the Carrier Sales API (src/app.py) and verification of
the frozen claims about it.  Pure string and list computations model the
Python handlers; query strings are association lists, the two flat-file
stores are explicit list-valued state.
-/

namespace CarrierAPI

/-- Model of Python str.lower for a single character (ASCII case folding). -/
def lowerChar (c : Char) : Char :=
  if 'A' ≤ c && c ≤ 'Z' then Char.ofNat (c.toNat + 32) else c

/-- Model of Python str.lower, as used by app.py for case-insensitive matching. -/
def strLower (s : String) : String := ⟨s.data.map lowerChar⟩

/-- Containment of one character list inside another (Python substring test). -/
def containsSub : List Char → List Char → Bool
  | needle, [] => needle.isEmpty
  | needle, c :: t => needle.isPrefixOf (c :: t) || containsSub needle t

/-- Model of the Python expression needle in hay for strings. -/
def strContains (hay needle : String) : Bool := containsSub needle.data hay.data

/-- A freight load record, the fields read by app.py; a missing JSON field is
modelled by the empty-string default used by load.get. -/
structure Load where
  load_id : String := ""
  origin : String := ""
  destination : String := ""
  equipment_type : String := ""
  commodity_type : String := ""
  pickup_datetime : String := ""
deriving DecidableEq, Repr

/-- A query string: ordered key-value pairs; lookup returns the first value,
like flask request.args.get. -/
abbrev Query := List (String × String)

/-- request.args.get(key, default-empty). -/
def getParamD (q : Query) (k : String) : String := (List.lookup k q).getD ""

/-- The query parameters read by search_loads (app.py lines 180-187), after the
lowercasing it applies to the six criterion strings. -/
structure SearchArgs where
  origin_city : String := ""
  origin_state : String := ""
  destination_city : String := ""
  destination_state : String := ""
  equipment_type : String := ""
  commodity : String := ""
  min_temp : Option String := none
  pickup_date : Option String := none
deriving DecidableEq, Repr

/-- Reads exactly the eight query parameters that search_loads reads, applying
str.lower to the six criterion strings as the code does. -/
def parseArgs (q : Query) : SearchArgs :=
  { origin_city := strLower (getParamD q "origin_city")
    origin_state := strLower (getParamD q "origin_state")
    destination_city := strLower (getParamD q "destination_city")
    destination_state := strLower (getParamD q "destination_state")
    equipment_type := strLower (getParamD q "equipment_type")
    commodity := strLower (getParamD q "commodity")
    min_temp := List.lookup "min_temp" q
    pickup_date := List.lookup "pickup_date" q }

/-- The sequence of continue-guards in the search_loads filtering loop
(app.py lines 196-224), translated check for check. -/
def loadPasses (a : SearchArgs) (l : Load) : Bool :=
  if a.origin_city != "" && !(strContains (strLower l.origin) a.origin_city) then false
  else if a.origin_state != "" && !(strContains (strLower l.origin) a.origin_state) then false
  else if a.destination_city != "" && !(strContains (strLower l.destination) a.destination_city) then false
  else if a.destination_state != "" && !(strContains (strLower l.destination) a.destination_state) then false
  else if a.equipment_type != "" && !(strContains (strLower l.equipment_type) a.equipment_type) then false
  else if a.commodity != "" && !(strContains (strLower l.commodity_type) a.commodity) then false
  else
    match a.pickup_date with
    | some p => if p != "" && !(strContains l.pickup_datetime p) then false else true
    | none => true

/-- The filtering loop of search_loads: loads are visited in catalog order and
appended when every guard passes. -/
def runSearch (a : SearchArgs) (loads : List Load) : List Load :=
  loads.filter (loadPasses a)

/-- The full search_loads computation on a query string and a catalog. -/
def searchLoads (q : Query) (loads : List Load) : List Load :=
  runSearch (parseArgs q) loads

/-- The specification predicate for inclusion of a load: every present
(non-empty) criterion is a case-insensitive substring of the corresponding
load field; origin_city and origin_state are both checked against the combined
origin string, pickup_date as a substring of the ISO string. -/
def matchesSpec (a : SearchArgs) (l : Load) : Bool :=
  (a.origin_city == "" || strContains (strLower l.origin) a.origin_city) &&
  ((a.origin_state == "" || strContains (strLower l.origin) a.origin_state) &&
   ((a.destination_city == "" || strContains (strLower l.destination) a.destination_city) &&
    ((a.destination_state == "" || strContains (strLower l.destination) a.destination_state) &&
     ((a.equipment_type == "" || strContains (strLower l.equipment_type) a.equipment_type) &&
      ((a.commodity == "" || strContains (strLower l.commodity_type) a.commodity) &&
       (match a.pickup_date with
        | some p => p == "" || strContains l.pickup_datetime p
        | none => true))))))

/-- No filter criterion is present: all six strings empty and pickup_date
absent or empty. -/
def noCriteria (a : SearchArgs) : Prop :=
  a.origin_city = "" ∧ a.origin_state = "" ∧ a.destination_city = "" ∧
  a.destination_state = "" ∧ a.equipment_type = "" ∧ a.commodity = "" ∧
  (a.pickup_date = none ∨ a.pickup_date = some "")

/-- Split a character list at the first occurrence of a character. -/
def breakAt (c : Char) : List Char → List Char × Option (List Char)
  | [] => ([], none)
  | x :: t =>
      if x == c then ([], some t)
      else
        let r := breakAt c t
        (x :: r.1, r.2)

/-- Split a combined City-comma-State string on the first comma into
(city, state); with no comma the whole string is the city and the state is
empty. -/
def splitFirstComma (s : String) : String × String :=
  let r := breakAt ',' s.data
  (⟨r.1⟩, ⟨(r.2).getD []⟩)

/-- Drop spaces at both ends of a character list. -/
def trimChars (l : List Char) : List Char :=
  ((l.dropWhile (· == ' ')).reverse.dropWhile (· == ' ')).reverse

/-- Whitespace trim of a string (spaces only, enough for City-comma-State). -/
def strTrim (s : String) : String := ⟨trimChars s.data⟩

/-- Modelled from the claim wording for C2, not from the code: a load search
that also accepts combined origin and destination parameters of the form
City-comma-ST, splits them on the first comma, and lets the combined form take
precedence over the separately supplied city and state parameters. -/
def searchLoadsCombinedSpec (q : Query) (loads : List Load) : List Load :=
  let base := parseArgs q
  let a1 :=
    match List.lookup "origin" q with
    | some s =>
        if s ≠ "" then
          let p := splitFirstComma s
          { base with origin_city := strLower (strTrim p.1),
                      origin_state := strLower (strTrim p.2) }
        else base
    | none => base
  let a2 :=
    match List.lookup "destination" q with
    | some s =>
        if s ≠ "" then
          let p := splitFirstComma s
          { a1 with destination_city := strLower (strTrim p.1),
                    destination_state := strLower (strTrim p.2) }
        else a1
    | none => a1
  runSearch a2 loads

/-- Bool helper: an early-false guard is a conjunction with the negated guard. -/
theorem iteFalseAnd (c x : Bool) : (if c then false else x) = (!c && x) := by
  cases c <;> simp

/-- Bool helper: negation of a present-and-fails guard is the
absent-or-matches disjunction. -/
theorem notGuard (s : String) (c : Bool) :
    (!(s != "" && !c)) = (s == "" || c) := by
  cases h : s == "" <;> cases c <;> simp [bne, h]

/-- The guard chain of the code equals the specification predicate. -/
theorem loadPasses_eq_matchesSpec (a : SearchArgs) (l : Load) :
    loadPasses a l = matchesSpec a l := by
  unfold loadPasses matchesSpec
  cases hp : a.pickup_date with
  | none =>
      simp only [iteFalseAnd, notGuard, Bool.and_true]
  | some p =>
      simp only [iteFalseAnd, notGuard, Bool.and_true]

/-- C3: for every catalog and every set of criteria, search_loads includes a
load exactly when every present (non-empty) criterion is a case-insensitive
substring of the corresponding field (origin_city and origin_state both
against the combined origin, pickup_date as substring of the ISO string);
the result is a sublist of the catalog in catalog order, and with no criteria
the entire catalog is returned unchanged. -/
theorem search_loads_filter_spec (q : Query) (loads : List Load) :
    searchLoads q loads = loads.filter (matchesSpec (parseArgs q))
    ∧ List.Sublist (searchLoads q loads) loads
    ∧ (noCriteria (parseArgs q) → searchLoads q loads = loads) := by
  refine ⟨?_, ?_, ?_⟩
  · exact List.filter_congr (fun l _ => loadPasses_eq_matchesSpec (parseArgs q) l)
  · exact List.filter_sublist loads
  · intro h
    apply List.filter_eq_self.mpr
    intro l _
    rw [loadPasses_eq_matchesSpec]
    obtain ⟨h1, h2, h3, h4, h5, h6, h7⟩ := h
    unfold matchesSpec
    rcases h7 with h7 | h7 <;>
      simp [h1, h2, h3, h4, h5, h6, h7]

/-- Witness for C3 at a concrete input: the empty query has no criteria and
returns the two-load catalog unchanged. -/
theorem search_loads_filter_spec_witness :
    searchLoads [] [{ load_id := "L1", origin := "Chicago, IL" },
                    { load_id := "L2", origin := "Dallas, TX" }]
      = [{ load_id := "L1", origin := "Chicago, IL" },
         { load_id := "L2", origin := "Dallas, TX" }] :=
  (search_loads_filter_spec []
      [{ load_id := "L1", origin := "Chicago, IL" },
       { load_id := "L2", origin := "Dallas, TX" }]).2.2
    ⟨rfl, rfl, rfl, rfl, rfl, rfl, Or.inl rfl⟩

/-- C2 counterexample: with a combined origin criterion dallas,tx supplied
together with a separate origin_city chicago, the code keeps the Chicago load
(it never reads the combined parameter), while the claimed behaviour (combined
form split on the comma and taking precedence) would exclude it. -/
theorem combined_origin_cex :
    searchLoads [("origin", "dallas,tx"), ("origin_city", "chicago")]
        [{ load_id := "L1", origin := "Chicago, IL" }]
      ≠ searchLoadsCombinedSpec [("origin", "dallas,tx"), ("origin_city", "chicago")]
        [{ load_id := "L1", origin := "Chicago, IL" }] := by
  decide

/-- C2 amended: search_loads never reads a combined origin or destination
query parameter; adding such parameters to any query leaves the result of the
search unchanged. -/
theorem combined_params_ignored (v w : String) (q : Query) (loads : List Load) :
    searchLoads (("origin", v) :: ("destination", w) :: q) loads
      = searchLoads q loads := rfl

/-- C9: the min_temp query parameter never affects the result: two searches
that differ only in min_temp return the same filtered loads. -/
theorem min_temp_no_effect (v : String) (q : Query) (loads : List Load)
    (a : SearchArgs) (t : Option String) :
    searchLoads (("min_temp", v) :: q) loads = searchLoads q loads
    ∧ runSearch { a with min_temp := t } loads = runSearch a loads :=
  ⟨rfl, rfl⟩

/-- Untyped JSON values, the shape of the upstream registry response. -/
inductive Json where
  | null : Json
  | bool : Bool → Json
  | num : ℚ → Json
  | str : String → Json
  | arr : List Json → Json
  | obj : List (String × Json) → Json

/-- Python truthiness of a JSON value. -/
def Json.truthy : Json → Bool
  | .null => false
  | .bool b => b
  | .num q => decide (q ≠ 0)
  | .str s => decide (s ≠ "")
  | .arr xs => !xs.isEmpty
  | .obj fs => !fs.isEmpty

/-- dict.get on a JSON object; none on any other value. -/
def Json.getKey : Json → String → Option Json
  | .obj fs, k => List.lookup k fs
  | _, _ => none

/-- isinstance(v, dict). -/
def Json.isObj : Json → Bool
  | .obj _ => true
  | _ => false

/-- Python a or b where a is an optional lookup result: b when a is missing or
falsy, a otherwise. -/
def orElseJson (a : Option Json) (b : Json) : Json :=
  match a with
  | some j => if j.truthy then j else b
  | none => b

/-- The shape-normalization of verify_carrier (app.py lines 96-111): coerce a
non-dict body to an empty dict, read content, take content.carrier or content
for a dict, first.carrier or first for a non-empty list with dict head, then
require the candidate to be truthy and a dict. -/
def normalizeCarrier (data : Json) : Option Json :=
  let d := match data with
    | .obj fs => Json.obj fs
    | _ => Json.obj []
  let content := d.getKey "content"
  let carrier : Option Json :=
    match content with
    | some (.obj fs) => some (orElseJson ((Json.obj fs).getKey "carrier") (.obj fs))
    | some (.arr (first :: _)) =>
        match first with
        | .obj fs => some (orElseJson ((Json.obj fs).getKey "carrier") (.obj fs))
        | _ => none
    | _ => none
  match carrier with
  | some c => if c.truthy && c.isObj then some c else none
  | none => none

/-- The carrier_data object built by verify_carrier. -/
structure CarrierData where
  mc_number : String
  legal_name : Json
  dot_number : Json
  city : Json
  state : Json

/-- The fixed mock carrier_data returned when the lookup fails or finds no
carrier (app.py lines 128-135 and 144-150). -/
def mockCarrier (mc : String) : CarrierData :=
  { mc_number := mc
    legal_name := .str "MOCK CARRIER LLC"
    dot_number := .str "123456"
    city := .str "Chicago"
    state := .str "IL" }

/-- Field extraction from a well-shaped carrier object (app.py lines 115-121),
with the truthiness-based fallback chain of Python or. -/
def extractCarrier (mc : String) (c : Json) : CarrierData :=
  { mc_number := mc
    legal_name := orElseJson (c.getKey "legalName")
                    (orElseJson (c.getKey "name") (.str "Unknown"))
    dot_number := orElseJson (c.getKey "dotNumber") (.str "N/A")
    city := orElseJson (c.getKey "phyCity") (.str "N/A")
    state := orElseJson (c.getKey "phyState") (.str "N/A") }

/-- Outcome of the outbound registry call: an exception anywhere in the try
block, or a body parsed by the robust-parse steps (a parse failure is an
empty object). -/
inductive UpstreamResult where
  | exn : String → UpstreamResult
  | ok : Json → UpstreamResult

/-- The JSON body of the verify-carrier response. -/
structure VerifyResponse where
  success : Bool
  verified : Bool
  carrier_data : Option CarrierData
  message : String

/-- The body computed by verify_carrier after auth and mc_number checks
(app.py lines 83-153): a well-shaped carrier gives the extracted data, any
other case - carrier not found or exception - gives the mock carrier, always
with verified true. -/
def verifyCarrier (mc : String) (u : UpstreamResult) : VerifyResponse :=
  match u with
  | .exn e =>
      { success := true, verified := true, carrier_data := some (mockCarrier mc)
        message := "FMCSA API error - using mock data: " ++ e }
  | .ok data =>
      match normalizeCarrier data with
      | some c =>
          { success := true, verified := true, carrier_data := some (extractCarrier mc c)
            message := "Carrier verified via FMCSA" }
      | none =>
          { success := true, verified := true, carrier_data := some (mockCarrier mc)
            message := "Carrier not found in FMCSA - using mock data for demo" }

/-- The verify-carrier endpoint with its auth and missing-mc_number checks;
the Nat is the HTTP status. -/
def verifyCarrierEndpoint (authed : Bool) (mc : String) (u : UpstreamResult) :
    Nat × Option VerifyResponse :=
  if !authed then (401, none)
  else if mc = "" then (400, none)
  else (200, some (verifyCarrier mc u))

/-- The failure condition of claim C1: the external call fails, or
normalization yields no well-shaped carrier object. -/
def upstreamFails : UpstreamResult → Prop
  | .exn _ => True
  | .ok d => normalizeCarrier d = none

/-- C1 counterexample: on an upstream exception (a failed external call) the
response does not report verified false with absent carrier_data - the code
returns verified true with mock data instead. -/
theorem verify_failure_cex :
    ¬ ((verifyCarrier "123456" (UpstreamResult.exn "timeout")).verified = false
       ∧ (verifyCarrier "123456" (UpstreamResult.exn "timeout")).carrier_data = none) := by
  simp [verifyCarrier]

/-- C1 amended: for every authenticated request with non-empty mc_number whose
external call fails or whose normalization yields no well-shaped carrier, the
endpoint returns HTTP 200 and a body with verified true and the fixed mock
carrier_data - verification is always reported as successful in these cases. -/
theorem verify_failure_mock (authed : Bool) (mc : String) (u : UpstreamResult)
    (ha : authed = true) (hmc : mc ≠ "") (hu : upstreamFails u) :
    verifyCarrierEndpoint authed mc u = (200, some (verifyCarrier mc u))
    ∧ (verifyCarrier mc u).success = true
    ∧ (verifyCarrier mc u).verified = true
    ∧ (verifyCarrier mc u).carrier_data = some (mockCarrier mc) := by
  subst ha
  refine ⟨by simp [verifyCarrierEndpoint, hmc], ?_, ?_, ?_⟩ <;>
    cases u with
    | exn e => simp [verifyCarrier]
    | ok d =>
        have hd : normalizeCarrier d = none := hu
        simp [verifyCarrier, hd]

/-- Witness for C1 at a concrete input: an authenticated request with
mc_number 777 whose outbound call raised a timeout exception. -/
theorem verify_failure_mock_witness :
    (("777" : String) ≠ "")
    ∧ (verifyCarrierEndpoint true "777" (UpstreamResult.exn "connection timeout")
          = (200, some (verifyCarrier "777" (UpstreamResult.exn "connection timeout")))
       ∧ (verifyCarrier "777" (UpstreamResult.exn "connection timeout")).success = true
       ∧ (verifyCarrier "777" (UpstreamResult.exn "connection timeout")).verified = true
       ∧ (verifyCarrier "777" (UpstreamResult.exn "connection timeout")).carrier_data
          = some (mockCarrier "777")) :=
  ⟨by decide,
   verify_failure_mock true "777" (UpstreamResult.exn "connection timeout")
     rfl (by decide) trivial⟩

/-- A sentiment field value in a stored call record: absent from the JSON
object, present but null, or a string. -/
inductive SentVal where
  | absent : SentVal
  | null : SentVal
  | str : String → SentVal
deriving DecidableEq, Repr

/-- A stored call record, restricted to the fields app.py reads: outcome and
numeric negotiation fields are none when absent or null, sentiment keeps the
three-way distinction, timestamp and id are the server-stamped strings. -/
structure Call where
  outcome : Option String := none
  sentiment : SentVal := .absent
  negotiation_rounds : Option ℚ := none
  agreed_rate : Option ℚ := none
  timestamp : String := ""
  id : String := ""
deriving DecidableEq

/-- A wall-clock reading of datetime.now at microsecond resolution. -/
structure PyDateTime where
  year : Nat
  month : Nat
  day : Nat
  hour : Nat
  minute : Nat
  second : Nat
  micro : Nat
deriving DecidableEq, Repr

/-- Zero-padded decimal rendering of a Nat to a minimum width. -/
def padNum (w n : Nat) : String :=
  let s := Nat.repr n
  ⟨List.replicate (w - s.length) '0' ++ s.data⟩

/-- The id assigned by save_call_results:
datetime.now().strftime of call_ percent-Y percent-m percent-d underscore
percent-H percent-M percent-S (app.py line 279). -/
def strftimeCallId (t : PyDateTime) : String :=
  "call_" ++ padNum 4 t.year ++ padNum 2 t.month ++ padNum 2 t.day ++ "_" ++
  padNum 2 t.hour ++ padNum 2 t.minute ++ padNum 2 t.second

/-- datetime.isoformat: microseconds appended only when non-zero. -/
def isoTimestamp (t : PyDateTime) : String :=
  padNum 4 t.year ++ "-" ++ padNum 2 t.month ++ "-" ++ padNum 2 t.day ++ "T" ++
  padNum 2 t.hour ++ ":" ++ padNum 2 t.minute ++ ":" ++ padNum 2 t.second ++
  (if t.micro = 0 then "" else "." ++ padNum 6 t.micro)

/-- The 201 response body of save_call_results. -/
structure SaveResponse where
  success : Bool
  call_id : String
  timestamp : String
  status : Nat
deriving DecidableEq

/-- save_call_results (app.py lines 274-295): stamp the payload with an ISO
timestamp from a first datetime.now reading and an id formatted from a second
reading, append to the loaded call collection, persist the whole collection,
and return the assigned id and timestamp with status 201. -/
def saveCallResults (payload : Call) (t1 t2 : PyDateTime) (store : List Call) :
    List Call × SaveResponse :=
  let stamped := { payload with timestamp := isoTimestamp t1, id := strftimeCallId t2 }
  (store ++ [stamped],
   { success := true, call_id := stamped.id, timestamp := stamped.timestamp, status := 201 })

/-- Modelled from the claim wording for C4, not from the code: an id of format
call_ followed by YYYYMMDDHHMMSS with no separator inside the numeric part. -/
def specCallId (t : PyDateTime) : String :=
  "call_" ++ padNum 4 t.year ++ padNum 2 t.month ++ padNum 2 t.day ++
  padNum 2 t.hour ++ padNum 2 t.minute ++ padNum 2 t.second

/-- C4 counterexample: at 2024-01-15 10:30:00 the assigned id is
call_20240115_103000, which differs from the claimed call_20240115103000
format (the code inserts an underscore between date and time). -/
theorem call_id_format_cex :
    (saveCallResults {} ⟨2024, 1, 15, 10, 30, 0, 0⟩ ⟨2024, 1, 15, 10, 30, 0, 0⟩ []).2.call_id
      ≠ specCallId ⟨2024, 1, 15, 10, 30, 0, 0⟩ := by
  decide

/-- C4 amended: the assigned id has format call_ YYYYMMDD underscore HHMMSS,
derived at second granularity from the second datetime.now reading (which may
differ from the reading stamped as the ISO timestamp), and the response
carries that id, the ISO timestamp and status 201, while the store receives
the stamped record appended at the end. -/
theorem call_id_format (payload : Call) (t1 t2 : PyDateTime) (store : List Call) :
    (saveCallResults payload t1 t2 store).2.call_id
      = "call_" ++ padNum 4 t2.year ++ padNum 2 t2.month ++ padNum 2 t2.day ++ "_" ++
        padNum 2 t2.hour ++ padNum 2 t2.minute ++ padNum 2 t2.second
    ∧ (saveCallResults payload t1 t2 store).2.timestamp = isoTimestamp t1
    ∧ (saveCallResults payload t1 t2 store).2.status = 201
    ∧ (saveCallResults payload t1 t2 store).1
      = store ++ [{ payload with timestamp := isoTimestamp t1, id := strftimeCallId t2 }] :=
  ⟨rfl, rfl, rfl, rfl⟩

/-- HTTP method of a registered route. -/
inductive Method where
  | GET : Method
  | POST : Method
deriving DecidableEq, Repr

/-- The route table of app.py: exactly the app.route decorations in the file,
with their methods. -/
def appRoutes : List (Method × String) :=
  [(.GET, "/health"),
   (.GET, "/api/verify-carrier"),
   (.GET, "/api/loads"),
   (.GET, "/api/loads/<load_id>"),
   (.POST, "/api/call-results"),
   (.GET, "/api/analytics"),
   (.GET, "/api/calls")]

/-- C5 counterexample: no POST route /api/save-call-results is registered in
app.py, so the claimed alias endpoint does not exist (such a request falls
through to the 404 handler). -/
theorem save_call_alias_missing :
    (Method.POST, "/api/save-call-results") ∉ appRoutes := by
  decide

/-- C5 amended: POST /api/call-results is the only registered POST route;
/api/save-call-results is not registered and is therefore not an alias. -/
theorem call_results_only_post_route :
    (Method.POST, "/api/call-results") ∈ appRoutes
    ∧ (Method.POST, "/api/save-call-results") ∉ appRoutes
    ∧ ∀ p, (Method.POST, p) ∈ appRoutes → p = "/api/call-results" := by
  refine ⟨by decide, by decide, ?_⟩
  intro p hp
  simp only [appRoutes, List.mem_cons, List.mem_singleton] at hp
  rcases hp with h | h | h | h | h | h | h <;> simp_all

/-- Witness for C5 at a concrete input: the registered POST route
/api/call-results satisfies the uniqueness clause. -/
theorem call_results_only_post_route_witness :
    (Method.POST, "/api/call-results") ∈ appRoutes
    ∧ ("/api/call-results" : String) = "/api/call-results" :=
  ⟨by decide, call_results_only_post_route.2.2 "/api/call-results" (by decide)⟩

/-- The effective sentiment value used by get_analytics: c.get with default
neutral maps an absent field to the string neutral, a null to Python None, a
string to itself (app.py line 329). -/
def effSentiment (c : Call) : Option String :=
  match c.sentiment with
  | .absent => some "neutral"
  | .null => none
  | .str s => some s

/-- Rounding to 2 decimals, modelling Python round(x, 2) by rounding
x * 100 to the nearest integer. -/
def round2 (q : ℚ) : ℚ := (round (q * 100) : ℤ) / 100

/-- The analytics block computed by get_analytics for a non-empty store
(app.py lines 323-358). -/
structure Analytics where
  total_calls : Nat
  successful_calls : Nat
  transferred_calls : Nat
  conversion_rate : ℚ
  positive : Nat
  neutral : Nat
  negative : Nat
  positive_rate : ℚ
  avg_rounds : ℚ
  avg_agreed_rate : ℚ

/-- The metric computation of get_analytics, translated clause for clause:
counts by outcome, sentiment bucket counts over c.get with default neutral,
truthiness-filtered negotiation_rounds and agreed_rate averages, the rates
guarded by total greater than zero, averages rounded to 2 decimals. -/
def computeAnalytics (calls : List Call) : Analytics :=
  let total := calls.length
  let successful := (calls.filter (fun c => c.outcome == some "agreed")).length
  let transferred := (calls.filter (fun c => c.outcome == some "transferred")).length
  let sentiments := calls.map effSentiment
  let positive := sentiments.count (some "positive")
  let neutral := sentiments.count (some "neutral")
  let negative := sentiments.count (some "negative")
  let rounds := calls.filterMap (fun c =>
    match c.negotiation_rounds with
    | some q => if q = 0 then none else some q
    | none => none)
  let avgRounds : ℚ := if rounds.isEmpty then 0 else rounds.sum / rounds.length
  let rates := calls.filterMap (fun c =>
    match c.agreed_rate with
    | some q => if q = 0 then none else some q
    | none => none)
  let avgRate : ℚ := if rates.isEmpty then 0 else rates.sum / rates.length
  { total_calls := total
    successful_calls := successful
    transferred_calls := transferred
    conversion_rate := if 0 < total then (successful : ℚ) / total * 100 else 0
    positive := positive
    neutral := neutral
    negative := negative
    positive_rate := if 0 < total then (positive : ℚ) / total * 100 else 0
    avg_rounds := round2 avgRounds
    avg_agreed_rate := round2 avgRate }

/-- The analytics response: the empty store is the distinguished
total_calls-0 case, otherwise the computed block. -/
inductive AnalyticsResponse where
  | empty : AnalyticsResponse
  | stats : Analytics → AnalyticsResponse

/-- get_analytics on the loaded call store. -/
def getAnalytics (calls : List Call) : AnalyticsResponse :=
  if calls.isEmpty then .empty else .stats (computeAnalytics calls)

/-- A sentiment field as the spec data model allows it: absent or one of the
three enum strings. -/
def allowedSent (c : Call) : Prop :=
  c.sentiment = SentVal.absent ∨ c.sentiment = SentVal.str "positive" ∨
  c.sentiment = SentVal.str "neutral" ∨ c.sentiment = SentVal.str "negative"

/-- Sentiment bucket counts sum to the store size when every sentiment is
absent or one of the three enum values. -/
theorem sentBuckets (calls : List Call) (hs : ∀ c ∈ calls, allowedSent c) :
    (calls.map effSentiment).count (some "positive")
    + (calls.map effSentiment).count (some "neutral")
    + (calls.map effSentiment).count (some "negative") = calls.length := by
  induction calls with
  | nil => simp
  | cons c t ih =>
      have hc : allowedSent c := hs c (by simp)
      have ih2 := ih (fun x hx => hs x (by simp [hx]))
      rcases hc with h | h | h | h <;>
        simp [effSentiment, h, List.count_cons] <;> omega

/-- C6 counterexample: a store holding one call whose sentiment string is
outside the three buckets gives bucket counts summing to 0, not to the store
size 1. -/
theorem sentiment_sum_cex :
    ¬ ((computeAnalytics [{ sentiment := SentVal.str "confused" }]).positive
       + (computeAnalytics [{ sentiment := SentVal.str "confused" }]).neutral
       + (computeAnalytics [{ sentiment := SentVal.str "confused" }]).negative
       = (computeAnalytics [{ sentiment := SentVal.str "confused" }]).total_calls) := by
  decide

/-- C6 amended: for every non-empty call store in which each sentiment field
is absent or one of the three enum strings, analytics returns the stats block
with conversion_rate exactly agreed-count over N times 100, bucket counts
summing to N (an absent sentiment counted as neutral), and positive_rate
exactly positive over N times 100. -/
theorem analytics_stats (calls : List Call) (hne : calls ≠ [])
    (hs : ∀ c ∈ calls, allowedSent c) :
    getAnalytics calls = AnalyticsResponse.stats (computeAnalytics calls)
    ∧ (computeAnalytics calls).total_calls = calls.length
    ∧ (computeAnalytics calls).conversion_rate
        = ((calls.countP (fun c => c.outcome == some "agreed") : ℚ) / (calls.length : ℚ)) * 100
    ∧ (computeAnalytics calls).positive + (computeAnalytics calls).neutral
        + (computeAnalytics calls).negative = calls.length
    ∧ (computeAnalytics calls).positive_rate
        = (((computeAnalytics calls).positive : ℚ) / (calls.length : ℚ)) * 100 := by
  have hlen : 0 < calls.length := List.length_pos.mpr hne
  refine ⟨?_, rfl, ?_, ?_, ?_⟩
  · cases calls with
    | nil => exact absurd rfl hne
    | cons c t => rfl
  · simp [computeAnalytics, hlen, List.countP_eq_length_filter]
  · exact sentBuckets calls hs
  · simp [computeAnalytics, hlen]

/-- Witness for C6 at a concrete input: one agreed positive call and one
declined call with absent sentiment. -/
theorem analytics_stats_witness :
    (([{ outcome := some "agreed", sentiment := SentVal.str "positive" },
       { outcome := some "declined" }] : List Call) ≠ [])
    ∧ (getAnalytics [{ outcome := some "agreed", sentiment := SentVal.str "positive" },
                     { outcome := some "declined" }]
        = AnalyticsResponse.stats (computeAnalytics
            [{ outcome := some "agreed", sentiment := SentVal.str "positive" },
             { outcome := some "declined" }])
       ∧ (computeAnalytics [{ outcome := some "agreed", sentiment := SentVal.str "positive" },
            { outcome := some "declined" }]).total_calls
          = ([{ outcome := some "agreed", sentiment := SentVal.str "positive" },
              { outcome := some "declined" }] : List Call).length
       ∧ (computeAnalytics [{ outcome := some "agreed", sentiment := SentVal.str "positive" },
            { outcome := some "declined" }]).conversion_rate
          = ((([{ outcome := some "agreed", sentiment := SentVal.str "positive" },
                { outcome := some "declined" }] : List Call).countP
                (fun c => c.outcome == some "agreed") : ℚ)
             / (([{ outcome := some "agreed", sentiment := SentVal.str "positive" },
                  { outcome := some "declined" }] : List Call).length : ℚ)) * 100
       ∧ (computeAnalytics [{ outcome := some "agreed", sentiment := SentVal.str "positive" },
            { outcome := some "declined" }]).positive
         + (computeAnalytics [{ outcome := some "agreed", sentiment := SentVal.str "positive" },
              { outcome := some "declined" }]).neutral
         + (computeAnalytics [{ outcome := some "agreed", sentiment := SentVal.str "positive" },
              { outcome := some "declined" }]).negative
          = ([{ outcome := some "agreed", sentiment := SentVal.str "positive" },
              { outcome := some "declined" }] : List Call).length
       ∧ (computeAnalytics [{ outcome := some "agreed", sentiment := SentVal.str "positive" },
            { outcome := some "declined" }]).positive_rate
          = (((computeAnalytics [{ outcome := some "agreed", sentiment := SentVal.str "positive" },
                { outcome := some "declined" }]).positive : ℚ)
             / (([{ outcome := some "agreed", sentiment := SentVal.str "positive" },
                  { outcome := some "declined" }] : List Call).length : ℚ)) * 100) :=
  ⟨by decide,
   analytics_stats
     [{ outcome := some "agreed", sentiment := SentVal.str "positive" },
      { outcome := some "declined" }]
     (by decide)
     (by
       intro c hc
       rcases List.mem_cons.mp hc with rfl | hc2
       · exact Or.inr (Or.inl rfl)
       · rcases List.mem_singleton.mp hc2 with rfl
         exact Or.inl rfl)⟩

/-- The negotiation_rounds values that qualify for the average per the claim:
values of calls with a non-null, non-zero negotiation_rounds. -/
def specRounds (calls : List Call) : List ℚ :=
  (calls.filterMap Call.negotiation_rounds).filter (fun q => decide (q ≠ 0))

/-- The agreed_rate values that qualify for the average per the claim:
values of calls with a non-null, non-zero agreed_rate. -/
def specRates (calls : List Call) : List ℚ :=
  (calls.filterMap Call.agreed_rate).filter (fun q => decide (q ≠ 0))

/-- The truthiness-filtered comprehension of get_analytics equals filtering
the non-null negotiation_rounds values by non-zero. -/
theorem roundsList_eq (calls : List Call) :
    calls.filterMap (fun c =>
      match c.negotiation_rounds with
      | some q => if q = 0 then none else some q
      | none => none) = specRounds calls := by
  induction calls with
  | nil => rfl
  | cons c t ih =>
      cases hf : c.negotiation_rounds with
      | none => simp [specRounds, List.filterMap_cons, hf] at ih ⊢; exact ih
      | some q =>
          by_cases hq : q = 0 <;>
            simp [specRounds, List.filterMap_cons, hf, hq] at ih ⊢ <;> exact ih

/-- The truthiness-filtered comprehension of get_analytics equals filtering
the non-null agreed_rate values by non-zero. -/
theorem ratesList_eq (calls : List Call) :
    calls.filterMap (fun c =>
      match c.agreed_rate with
      | some q => if q = 0 then none else some q
      | none => none) = specRates calls := by
  induction calls with
  | nil => rfl
  | cons c t ih =>
      cases hf : c.agreed_rate with
      | none => simp [specRates, List.filterMap_cons, hf] at ih ⊢; exact ih
      | some q =>
          by_cases hq : q = 0 <;>
            simp [specRates, List.filterMap_cons, hf, hq] at ih ⊢ <;> exact ih

/-- Rounding zero to two decimals gives zero. -/
theorem round2_zero : round2 0 = 0 := by simp [round2]

/-- C7: avg_rounds is the 2-decimal rounding of the mean of negotiation_rounds
over calls with a non-zero, non-null value, avg_agreed_rate likewise for
agreed_rate, each degrading to 0 when no call qualifies; on the example store
(rounds 3 and rate 1500, then rounds 0) the averages are 3 and 1500. -/
theorem negotiation_avgs (calls : List Call) :
    ((computeAnalytics calls).avg_rounds
      = if specRounds calls = [] then 0
        else round2 ((specRounds calls).sum / ((specRounds calls).length : ℚ)))
    ∧ ((computeAnalytics calls).avg_agreed_rate
      = if specRates calls = [] then 0
        else round2 ((specRates calls).sum / ((specRates calls).length : ℚ)))
    ∧ (computeAnalytics
        [{ outcome := some "agreed", sentiment := SentVal.str "positive",
           negotiation_rounds := some 3, agreed_rate := some 1500 },
         { outcome := some "declined", sentiment := SentVal.str "negative",
           negotiation_rounds := some 0 }]).avg_rounds = 3
    ∧ (computeAnalytics
        [{ outcome := some "agreed", sentiment := SentVal.str "positive",
           negotiation_rounds := some 3, agreed_rate := some 1500 },
         { outcome := some "declined", sentiment := SentVal.str "negative",
           negotiation_rounds := some 0 }]).avg_agreed_rate = 1500 := by
  refine ⟨?_, ?_, ?_, ?_⟩
  · show round2 _ = _
    rw [roundsList_eq]
    by_cases h : specRounds calls = [] <;> simp [h, round2_zero]
  · show round2 _ = _
    rw [ratesList_eq]
    by_cases h : specRates calls = [] <;> simp [h, round2_zero]
  · norm_num [computeAnalytics, round2, round_eq, List.filterMap_cons]
  · norm_num [computeAnalytics, round2, round_eq, List.filterMap_cons]

/-- The list.sort of get_all_calls: stable sort on the timestamp key with
reverse true, newest first (app.py line 380). -/
def sortCalls (calls : List Call) : List Call :=
  calls.mergeSort (fun a b => decide (b.timestamp ≤ a.timestamp))

/-- Python list slicing calls[:n]: the first n elements for non-negative n,
all but the last -n elements for negative n. -/
def pySlice (l : List Call) (n : Int) : List Call :=
  if 0 ≤ n then l.take n.toNat else l.take (l.length - (-n).toNat)

/-- get_all_calls (app.py lines 377-392): sort newest first, truncate only
when the limit parameter is present and truthy (non-zero), return the list
with its count. -/
def getAllCalls (limit : Option Int) (calls : List Call) : Nat × List Call :=
  let sorted := sortCalls calls
  let limited :=
    match limit with
    | some n => if n ≠ 0 then pySlice sorted n else sorted
    | none => sorted
  (limited.length, limited)

/-- C10: a limit of 0 is falsy in Python, so GET /api/calls with limit 0
returns exactly what it returns with no limit: every recorded call, sorted,
with count equal to the store size. -/
theorem limit_zero_returns_all (calls : List Call) :
    getAllCalls (some 0) calls = getAllCalls none calls
    ∧ (getAllCalls (some 0) calls).2 = sortCalls calls
    ∧ (getAllCalls (some 0) calls).1 = calls.length := by
  refine ⟨by simp [getAllCalls], by simp [getAllCalls], ?_⟩
  simp [getAllCalls, sortCalls, List.length_mergeSort]

/-- The persisted state of the service: the two flat files. -/
structure ServerState where
  loadsCatalog : List Load
  callsLog : List Call
deriving DecidableEq

/-- GET /api/loads as a state transformer: reads the catalog, writes
nothing. -/
def searchLoadsGet (q : Query) (s : ServerState) : ServerState × (Nat × List Load) :=
  (s, ((searchLoads q s.loadsCatalog).length, searchLoads q s.loadsCatalog))

/-- GET /api/loads/load_id as a state transformer: first catalog entry with
the requested id, writes nothing. -/
def getLoadByIdGet (lid : String) (s : ServerState) : ServerState × Option Load :=
  (s, s.loadsCatalog.find? (fun l => l.load_id == lid))

/-- GET /api/analytics as a state transformer: reads the call store, writes
nothing. -/
def analyticsGet (s : ServerState) : ServerState × AnalyticsResponse :=
  (s, getAnalytics s.callsLog)

/-- GET /api/calls as a state transformer: reads the call store, writes
nothing. -/
def callsGet (limit : Option Int) (s : ServerState) : ServerState × (Nat × List Call) :=
  (s, getAllCalls limit s.callsLog)

/-- GET /api/verify-carrier as a state transformer: the upstream registry
response is an input of the request, no stored state is read or written. -/
def verifyCarrierGet (authed : Bool) (mc : String) (u : UpstreamResult)
    (s : ServerState) : ServerState × (Nat × Option VerifyResponse) :=
  (s, verifyCarrierEndpoint authed mc u)

/-- C8: every modelled GET endpoint leaves the stored state unchanged, and a
second request with identical parameters (for verify-carrier, including an
identical upstream response) against the resulting state returns the
identical result. -/
theorem get_requests_idempotent (s : ServerState) (q : Query) (lid : String)
    (lim : Option Int) (authed : Bool) (mc : String) (u : UpstreamResult) :
    (verifyCarrierGet authed mc u s).1 = s
    ∧ (verifyCarrierGet authed mc u ((verifyCarrierGet authed mc u s).1)).2
        = (verifyCarrierGet authed mc u s).2
    ∧ (searchLoadsGet q s).1 = s
    ∧ (searchLoadsGet q ((searchLoadsGet q s).1)).2 = (searchLoadsGet q s).2
    ∧ (getLoadByIdGet lid s).1 = s
    ∧ (getLoadByIdGet lid ((getLoadByIdGet lid s).1)).2 = (getLoadByIdGet lid s).2
    ∧ (analyticsGet s).1 = s
    ∧ (analyticsGet ((analyticsGet s).1)).2 = (analyticsGet s).2
    ∧ (callsGet lim s).1 = s
    ∧ (callsGet lim ((callsGet lim s).1)).2 = (callsGet lim s).2 :=
  ⟨rfl, rfl, rfl, rfl, rfl, rfl, rfl, rfl, rfl, rfl⟩

end CarrierAPI
